import Mathlib

/-!
Shallow embedding of the compiler-generated-method resolution core found in
`frontend/lib/resolution/default-functions.cpp` of the Chapel frontend.

Pure fragments of the C++ become Lean functions.  External collaborators
(scope lookup, the `canPass` applicability judgment, field enumeration,
genericity classification) are modelled as fields of a `Context` record, so
every theorem quantifies over their behaviour.  Fatal `CHPL_ASSERT` /
`CHPL_UNIMPL` executions and null-pointer dereferences are made explicit by
returning `Except Fatal _`.
-/

namespace Chapel

/-- `QualifiedType::Kind` values used in this translation unit. -/
inductive QtKind where
  | defaultIntent
  | var
  | ref
  | constRef
  | refMaybeConst
  | constIn
  | inIntent
  | typeK
  | param
deriving DecidableEq

/-- The three composite kinds handled by the init-family generators. -/
inductive CompositeKind where
  | record
  | basicClass
  | union
deriving DecidableEq

/-- A record/class/union composite type.  `instFromId`, when present, is the
id of the fully generic composite this type was instantiated from
(`instantiatedFromCompositeType`).  `parentNonTrivial` records, for a basic
class, whether it has a parent class other than `object`. -/
structure Composite where
  ckind : CompositeKind
  cid : Nat
  instFromId : Option Nat
  parentNonTrivial : Bool
deriving DecidableEq

/-- `CompositeType::instantiatedFromCompositeType()`: the fully generic
version, itself not an instantiation. -/
def Composite.instantiatedFrom (c : Composite) : Option Composite :=
  c.instFromId.map (fun i => { c with cid := i, instFromId := none })

/-- The only `ClassTypeDecorator` built in this file. -/
inductive Decorator where
  | borrowedNonNil
deriving DecidableEq

/-- The type variants this translation unit distinguishes.  `classTy` is a
decorated `ClassType` over a basic class; `primitive` stands for the
remaining types (int, bool, ...). -/
inductive Ty where
  | composite (c : Composite)
  | classTy (basic : Composite) (dec : Decorator)
  | tupleTy (id : Nat)
  | arrayTy (id : Nat)
  | domainTy (id : Nat)
  | cptrTy (id : Nat)
  | enumTy (id : Nat) (abstract : Bool)
  | anyIntegralTy
  | primitive (id : Nat)
deriving DecidableEq

def Ty.isRecordType : Ty → Bool
  | .composite c => c.ckind = .record
  | _ => false

def Ty.isTupleType : Ty → Bool
  | .tupleTy _ => true
  | _ => false

def Ty.isDomainType : Ty → Bool
  | .domainTy _ => true
  | _ => false

def Ty.isArrayType : Ty → Bool
  | .arrayTy _ => true
  | _ => false

def Ty.isCPtrType : Ty → Bool
  | .cptrTy _ => true
  | _ => false

def Ty.isEnumType : Ty → Bool
  | .enumTy _ _ => true
  | _ => false

/-- Result of `Type::getCompositeType()`.  Tuple, array and domain types are
`CompositeType`s in the source's type hierarchy, so they are representable
results distinct from record/class/union composites. -/
inductive CompType where
  | rcu (c : Composite)
  | tupleC (id : Nat)
  | arrayC (id : Nat)
  | domainC (id : Nat)
deriving DecidableEq

def CompType.cid : CompType → Nat
  | .rcu c => c.cid
  | .tupleC i => i
  | .arrayC i => i
  | .domainC i => i

def CompType.toTy : CompType → Ty
  | .rcu c => .composite c
  | .tupleC i => .tupleTy i
  | .arrayC i => .arrayTy i
  | .domainC i => .domainTy i

def CompType.instantiatedFrom : CompType → Option CompType
  | .rcu c => (c.instantiatedFrom).map .rcu
  | _ => none

/-- `Type::getCompositeType()`: composites yield themselves, a decorated
class yields its basic class; other types yield null. -/
def Ty.getCompositeType : Ty → Option CompType
  | .composite c => some (.rcu c)
  | .classTy b _ => some (.rcu b)
  | .tupleTy i => some (.tupleC i)
  | .arrayTy i => some (.arrayC i)
  | .domainTy i => some (.domainC i)
  | .cptrTy _ => none
  | .enumTy _ _ => none
  | .anyIntegralTy => none
  | .primitive _ => none

/-- A kind paired with a type (`types::QualifiedType`). -/
structure QualifiedType where
  kind : QtKind
  type : Ty
deriving DecidableEq

/-- `UntypedFnSignature::FormalDetail` (the declaring node is always null in
the generated signatures of this file, so it is omitted). -/
structure FormalDetail where
  name : String
  hasDefault : Bool
deriving DecidableEq

/-- `uast::Function::Kind` values used here. -/
inductive FnKind where
  | proc
  | operator
deriving DecidableEq

/-- The fields of `UntypedFnSignature` that the generators set (the where
clause is always null). -/
structure UntypedFnSignature where
  id : Nat
  name : String
  isMethod : Bool
  isTypeConstructor : Bool
  isCompilerGenerated : Bool
  throws : Bool
  kind : FnKind
  formals : List FormalDetail
deriving DecidableEq

/-- The fields of `TypedFnSignature` the generators set (`WHERE_NONE`, null
`instantiatedFrom`/`parentFn` and an empty bitmap are constant and
omitted). -/
structure TypedFnSignature where
  untyped : UntypedFnSignature
  formalTypes : List QualifiedType
  needsInstantiation : Bool
deriving DecidableEq

/-- Outcome of the external `canPass` applicability judgment. -/
structure CanPassResult where
  passes : Bool
  converts : Bool
  convertsWithBorrowing : Bool
  promotes : Bool
deriving DecidableEq

/-- A declaration found by scope lookup: either a function, whose initial
signature resolution yields the qualified type of the checked formal (the
`this` formal for a method, the first formal otherwise), or some other
declaration. -/
inductive LookedUpDecl where
  | fn (isMethod : Bool) (kind : FnKind) (receiverQt : QualifiedType)
  | other
deriving DecidableEq

/-- One field as reported by `fieldsForTypeDecl`. -/
structure Field where
  name : String
  qt : QualifiedType
  hasDefaultValue : Bool
deriving DecidableEq

/-- The portion of a `ResolvedFields` query result used here. -/
structure ResolvedFields where
  fields : List Field
  isGeneric : Bool
deriving DecidableEq

/-- `Type::Genericity` classification. -/
inductive Genericity where
  | concrete
  | generic
  | genericWithDefaults
  | maybeGeneric
deriving DecidableEq

/-- The external collaborators (queries of the compilation context) the
translation unit calls into. -/
structure Context where
  scopeForId : Nat → Option Nat
  lookupNameInScope : Nat → String → List LookedUpDecl
  canPass : QualifiedType → QualifiedType → CanPassResult
  fieldsForTypeDecl : CompType → ResolvedFields
  isTypeDefaultInitializable : Ty → Bool
  getTypeGenericity : Ty → Genericity

/-- A fatal outcome: a failed `CHPL_ASSERT`, a `CHPL_UNIMPL`, or a null
pointer dereference. -/
inductive Fatal where
  | assertFailed (msg : String)
  | unimplemented (msg : String)
  | nullDereference
deriving DecidableEq

/-- `isNameOfCompilerGeneratedMethod`. -/
def isNameOfCompilerGeneratedMethod (name : String) : Bool :=
  name = "init" || name = "deinit" || name = "init="

/-- `isBuiltinTypeOperator`: note the source returns the NEGATION of the
membership test for the two operator names. -/
def isBuiltinTypeOperator (name : String) : Bool :=
  !(name = "==" || name = "=")

/-- `areOverloadsPresentInDefiningScope`. -/
def areOverloadsPresentInDefiningScope (ctx : Context) (type : Ty)
    (name : String) : Bool :=
  let scopeForReceiverType : Option Nat :=
    match type.getCompositeType with
    | some compType => ctx.scopeForId compType.cid
    | none => none
  match scopeForReceiverType with
  | none => false
  | some scope =>
    let vec := ctx.lookupNameInScope scope name
    let haveQt : QualifiedType := ⟨.var, type⟩
    vec.any fun d =>
      match d with
      | .fn isMethod kind receiverQualType =>
        (isMethod || kind = .operator) &&
        (let result := ctx.canPass haveQt receiverQualType
         result.passes &&
         (!result.converts || result.convertsWithBorrowing) &&
         !result.promotes)
      | .other => false

/-- `needCompilerGeneratedMethod`. -/
def needCompilerGeneratedMethod (ctx : Context) (type : Ty) (name : String)
    (parenless : Bool) : Bool :=
  if (isNameOfCompilerGeneratedMethod name ||
      (type.isRecordType && !isBuiltinTypeOperator name)) &&
     !areOverloadsPresentInDefiningScope ctx type name then
    true
  else if type.isTupleType && name = "size" then
    true
  else if type.isDomainType then
    if parenless then
      name = "idxType" || name = "rank" || name = "stridable" ||
        name = "parSafe"
    else
      name = "isRectangular" || name = "isAssociative"
  else if type.isArrayType then
    name = "domain" || name = "eltType"
  else if type.isCPtrType then
    name = "eltType"
  else
    false

/-- `generateInitParts`: the shared receiver construction for `init`,
`init=` and `deinit`.  Returns the adjusted composite together with the
untyped formal list and formal-type list holding the receiver entry. -/
def generateInitParts (inCompType : CompType) (useGeneric : Bool) :
    Except Fatal (CompType × List FormalDetail × List QualifiedType) :=
  let compType :=
    match inCompType.instantiatedFrom with
    | some genericCompType =>
      if useGeneric then genericCompType else inCompType
    | none => inCompType
  let ufsFormals : List FormalDetail := [⟨"this", false⟩]
  match compType with
  | .rcu c =>
    match c.ckind with
    | .record => .ok (compType, ufsFormals, [⟨.ref, .composite c⟩])
    | .union => .ok (compType, ufsFormals, [⟨.ref, .composite c⟩])
    | .basicClass =>
      .ok (compType, ufsFormals,
           [⟨.constIn, .classTy c .borrowedNonNil⟩])
  | _ => .error (.assertFailed "Not possible!")

/-- `generateInitSignature`.  The argument may be null (the caller passes
`type->getCompositeType()` unchecked for the `init` family). -/
def generateInitSignature (ctx : Context) (inCompType? : Option CompType) :
    Except Fatal TypedFnSignature :=
  match inCompType? with
  | none => .error .nullDereference
  | some inCompType =>
    match generateInitParts inCompType true with
    | .error e => .error e
    | .ok (compType, ufsFormals0, formalTypes0) =>
      let rf := ctx.fieldsForTypeDecl compType
      if rf.isGeneric then .error (.assertFailed "Not handled yet!")
      else
        let parentUnimpl :=
          match compType with
          | .rcu c => c.ckind = CompositeKind.basicClass &&
                      c.parentNonTrivial
          | _ => false
        if parentUnimpl then
          .error (.unimplemented "initializers on inheriting classes")
        else
          let ufsFormals := ufsFormals0 ++ rf.fields.map
            (fun (f : Field) =>
              (⟨f.name,
                f.hasDefaultValue ||
                  ctx.isTypeDefaultInitializable f.qt.type⟩ : FormalDetail))
          let formalTypes := formalTypes0 ++ rf.fields.map
            (fun (f : Field) =>
              if f.qt.kind = QtKind.typeK || f.qt.kind = QtKind.param
              then f.qt
              else (⟨.inIntent, f.qt.type⟩ : QualifiedType))
          .ok { untyped := { id := compType.cid, name := "init",
                             isMethod := true, isTypeConstructor := false,
                             isCompilerGenerated := true, throws := false,
                             kind := .proc, formals := ufsFormals },
                formalTypes := formalTypes,
                needsInstantiation := rf.isGeneric }

/-- `generateInitCopySignature`. -/
def generateInitCopySignature (inCompType? : Option CompType) :
    Except Fatal TypedFnSignature :=
  match inCompType? with
  | none => .error .nullDereference
  | some inCompType =>
    match generateInitParts inCompType false with
    | .error e => .error e
    | .ok (compType, ufsFormals0, formalTypes0) =>
      let ufsFormals := ufsFormals0 ++ [⟨"other", false⟩]
      match formalTypes0 with
      | [qtReceiver] =>
        let formalTypes := [qtReceiver, ⟨.constRef, qtReceiver.type⟩]
        .ok { untyped := { id := compType.cid, name := "init=",
                           isMethod := true, isTypeConstructor := false,
                           isCompilerGenerated := true, throws := false,
                           kind := .proc, formals := ufsFormals },
              formalTypes := formalTypes,
              needsInstantiation := false }
      | _ => .error (.assertFailed "formalTypes.size() == 1")

/-- `generateDeinitSignature`. -/
def generateDeinitSignature (inCompType? : Option CompType) :
    Except Fatal TypedFnSignature :=
  match inCompType? with
  | none => .error .nullDereference
  | some inCompType =>
    match generateInitParts inCompType false with
    | .error e => .error e
    | .ok (compType, ufsFormals, formalTypes) =>
      .ok { untyped := { id := compType.cid, name := "deinit",
                         isMethod := true, isTypeConstructor := false,
                         isCompilerGenerated := true, throws := false,
                         kind := .proc, formals := ufsFormals },
            formalTypes := formalTypes,
            needsInstantiation := false }

/-- The common shape of `generateDomainMethod`, `generateArrayMethod`,
`generateTupleMethod` and `generateCPtrMethod`: one `this` formal of kind
CONST_REF over the exact type, a PROC signature never needing
instantiation. -/
def generateReceiverOnlyMethod (id : Nat) (receiver : Ty) (name : String) :
    TypedFnSignature :=
  { untyped := { id := id, name := name, isMethod := true,
                 isTypeConstructor := false, isCompilerGenerated := true,
                 throws := false, kind := .proc,
                 formals := [⟨"this", false⟩] },
    formalTypes := [⟨.constRef, receiver⟩],
    needsInstantiation := false }

/-- `generateDomainMethod`. -/
def generateDomainMethod (did : Nat) (name : String) : TypedFnSignature :=
  generateReceiverOnlyMethod did (.domainTy did) name

/-- `generateArrayMethod`. -/
def generateArrayMethod (aid : Nat) (name : String) : TypedFnSignature :=
  generateReceiverOnlyMethod aid (.arrayTy aid) name

/-- `generateTupleMethod`. -/
def generateTupleMethod (tid : Nat) (name : String) : TypedFnSignature :=
  generateReceiverOnlyMethod tid (.tupleTy tid) name

/-- `generateCPtrMethod`. -/
def generateCPtrMethod (pid : Nat) (name : String) : TypedFnSignature :=
  generateReceiverOnlyMethod pid (.cptrTy pid) name

/-- `generateUnaryOperatorMethodParts`: strips the instantiation, requires a
record, and pushes the `this` and `lhs` formals. -/
def generateUnaryOperatorMethodParts (inCompType : CompType)
    (thisKind lhsKind : QtKind) :
    Except Fatal (CompType × List FormalDetail × List QualifiedType) :=
  let compType :=
    match inCompType.instantiatedFrom with
    | some genericCompType => genericCompType
    | none => inCompType
  if compType.toTy.isRecordType then
    .ok (compType,
         [⟨"this", false⟩, ⟨"lhs", false⟩],
         [⟨thisKind, compType.toTy⟩, ⟨lhsKind, compType.toTy⟩])
  else
    .error (.assertFailed "Only RecordType supported for now")

/-- `generateBinaryOperatorMethodParts`: the unary parts plus the `rhs`
formal. -/
def generateBinaryOperatorMethodParts (inCompType : CompType)
    (thisKind lhsKind rhsKind : QtKind) :
    Except Fatal (CompType × List FormalDetail × List QualifiedType) :=
  match generateUnaryOperatorMethodParts inCompType thisKind lhsKind with
  | .error e => .error e
  | .ok (compType, ufsFormals, formalTypes) =>
    .ok (compType,
         ufsFormals ++ [⟨"rhs", false⟩],
         formalTypes ++ [⟨rhsKind, compType.toTy⟩])

/-- `generateRecordBinaryOperator`. -/
def generateRecordBinaryOperator (ctx : Context) (op : String)
    (lhsType : CompType) (thisKind lhsKind rhsKind : QtKind) :
    Except Fatal TypedFnSignature :=
  match generateBinaryOperatorMethodParts lhsType thisKind lhsKind rhsKind
  with
  | .error e => .error e
  | .ok (compType, ufsFormals, formalTypes) =>
    let g := ctx.getTypeGenericity lhsType.toTy
    .ok { untyped := { id := compType.cid, name := op, isMethod := true,
                       isTypeConstructor := false,
                       isCompilerGenerated := true, throws := false,
                       kind := .operator, formals := ufsFormals },
          formalTypes := formalTypes,
          needsInstantiation :=
            g = .generic || g = .genericWithDefaults }

/-- `generateRecordAssignment`. -/
def generateRecordAssignment (ctx : Context) (lhsType : CompType) :
    Except Fatal TypedFnSignature :=
  generateRecordBinaryOperator ctx "=" lhsType .constRef .constRef .constRef

/-- `generateRecordComparison`. -/
def generateRecordComparison (ctx : Context) (lhsType : CompType) :
    Except Fatal TypedFnSignature :=
  generateRecordBinaryOperator ctx "==" lhsType .ref .ref .constRef

/-- `Type::toEnumType()` as the id/abstractness data, null otherwise. -/
def Ty.toEnumType? : Ty → Option (Nat × Bool)
  | .enumTy i a => some (i, a)
  | _ => none

/-- `setupGeneratedEnumCastFormals`. -/
def setupGeneratedEnumCastFormals (enumType : Ty) (isFromCast : Bool) :
    List FormalDetail × List QualifiedType :=
  let fromType := if isFromCast then enumType else Ty.anyIntegralTy
  let toType := if isFromCast then Ty.anyIntegralTy else enumType
  ([⟨"from", false⟩, ⟨"to", false⟩],
   [⟨.defaultIntent, fromType⟩, ⟨.typeK, toType⟩])

/-- `generateToOrFromCastForEnum`.  The source dereferences the
`toEnumType()` result unconditionally, so a non-enum operand is a null
dereference. -/
def generateToOrFromCastForEnum (lhs rhs : QualifiedType)
    (isFromCast : Bool) : Except Fatal (Option TypedFnSignature) :=
  let enumType? :=
    if isFromCast then lhs.type.toEnumType? else rhs.type.toEnumType?
  match enumType? with
  | none => .error .nullDereference
  | some (eid, isAbstract) =>
    if isAbstract then .ok none
    else
      let parts :=
        setupGeneratedEnumCastFormals (.enumTy eid isAbstract) isFromCast
      .ok (some
        { untyped := { id := eid, name := ":", isMethod := false,
                       isTypeConstructor := false,
                       isCompilerGenerated := true, throws := false,
                       kind := .operator, formals := parts.1 },
          formalTypes := parts.2,
          needsInstantiation := true })

/-- `generateCastFromEnum`. -/
def generateCastFromEnum (lhs rhs : QualifiedType) :
    Except Fatal (Option TypedFnSignature) :=
  generateToOrFromCastForEnum lhs rhs true

/-- `generateCastToEnum`. -/
def generateCastToEnum (lhs rhs : QualifiedType) :
    Except Fatal (Option TypedFnSignature) :=
  generateToOrFromCastForEnum lhs rhs false

/-- The body of `getCompilerGeneratedMethodQuery` before its trailing
assertion: decide whether generation is needed and dispatch to the
matching generator. -/
def getCompilerGeneratedMethodBody (ctx : Context) (type : Ty)
    (name : String) (parenless : Bool) :
    Except Fatal (Option TypedFnSignature) :=
  if needCompilerGeneratedMethod ctx type name parenless then
    let compType := type.getCompositeType
    if compType.isNone && !type.isCPtrType then
      .error (.assertFailed "compType || type->isCPtrType()")
    else if name = "init" then
      (generateInitSignature ctx compType).map some
    else if name = "init=" then
      (generateInitCopySignature compType).map some
    else if name = "deinit" then
      (generateDeinitSignature compType).map some
    else
      match type with
      | .domainTy did => .ok (some (generateDomainMethod did name))
      | .arrayTy aid => .ok (some (generateArrayMethod aid name))
      | .tupleTy tid => .ok (some (generateTupleMethod tid name))
      | .composite c =>
        if c.ckind = CompositeKind.record then
          if name = "==" then
            (generateRecordComparison ctx (.rcu c)).map some
          else if name = "=" then
            (generateRecordAssignment ctx (.rcu c)).map some
          else
            .error (.assertFailed "record method not implemented yet!")
        else
          .error (.assertFailed "should not be reachable")
      | .cptrTy pid => .ok (some (generateCPtrMethod pid name))
      | _ => .error (.assertFailed "should not be reachable")
  else
    .ok none

/-- `getCompilerGeneratedMethodQuery`: the body followed by the source's
unconditional assertion `CHPL_ASSERT(result->untyped()->name() == name)`,
which dereferences `result` even when it is null. -/
def getCompilerGeneratedMethodQuery (ctx : Context) (type : Ty)
    (name : String) (parenless : Bool) :
    Except Fatal (Option TypedFnSignature) :=
  match getCompilerGeneratedMethodBody ctx type name parenless with
  | .error e => .error e
  | .ok none => .error .nullDereference
  | .ok (some sig) =>
    if sig.untyped.name = name then .ok (some sig)
    else .error (.assertFailed "result->untyped()->name() == name")

/-- `getCompilerGeneratedMethod` (the query wrapper). -/
def getCompilerGeneratedMethod (ctx : Context) (type : Ty) (name : String)
    (parenless : Bool) : Except Fatal (Option TypedFnSignature) :=
  getCompilerGeneratedMethodQuery ctx type name parenless

/-- `getCompilerGeneratedBinaryOpQuery`. -/
def getCompilerGeneratedBinaryOpQuery (lhs rhs : QualifiedType)
    (name : String) : Except Fatal (Option TypedFnSignature) :=
  if name = ":" then
    if lhs.type.isEnumType then
      generateCastFromEnum lhs rhs
    else if rhs.type.isEnumType then
      generateCastToEnum lhs rhs
    else
      .ok none
  else
    .ok none

/-- `getCompilerGeneratedBinaryOp` (the query wrapper). -/
def getCompilerGeneratedBinaryOp (lhs rhs : QualifiedType)
    (name : String) : Except Fatal (Option TypedFnSignature) :=
  getCompilerGeneratedBinaryOpQuery lhs rhs name

/-- The fully generic (instantiation-stripped) version of a composite: the
`instantiatedFromCompositeType` result when present, the type itself
otherwise. -/
def Composite.genericStripped (c : Composite) : Composite :=
  (c.instantiatedFrom).getD c

/-- The receiver qualified type the init-family generators build: REF over
the composite for a record or union, CONST_IN over the non-nilable
borrowed class reference for a basic class. -/
def initReceiverQt (c : Composite) : QualifiedType :=
  match c.ckind with
  | .record => ⟨.ref, .composite c⟩
  | .union => ⟨.ref, .composite c⟩
  | .basicClass => ⟨.constIn, .classTy c .borrowedNonNil⟩

/-- The shadow condition as the specification words it: some declaration
found by looking the name up in the type's defining scope is a method or
operator function whose receiver formal (the `this` formal for a method,
the first formal for a standalone operator) the concrete type can pass to
with no conversion or only an implicit-borrowing conversion, and without
promotion.  A type with no defining scope is never shadowed. -/
def shadowedSpec (ctx : Context) (t : Ty) (name : String) : Prop :=
  ∃ ct scope, t.getCompositeType = some ct ∧
    ctx.scopeForId ct.cid = some scope ∧
    ∃ d ∈ ctx.lookupNameInScope scope name, ∃ m k rqt,
      d = LookedUpDecl.fn m k rqt ∧
      (m = true ∨ k = FnKind.operator) ∧
      (ctx.canPass ⟨.var, t⟩ rqt).passes = true ∧
      ((ctx.canPass ⟨.var, t⟩ rqt).converts = false ∨
        (ctx.canPass ⟨.var, t⟩ rqt).convertsWithBorrowing = true) ∧
      (ctx.canPass ⟨.var, t⟩ rqt).promotes = false

/-- The enum-cast operator signature as the specification describes it:
a non-method `:` operator with formals `from` and `to`; for a from-enum
cast `from` is the enum with default intent and `to` a type-formal of the
abstract any-integral type, the roles inverted for a to-enum cast. -/
def enumCastSig (eid : Nat) (ab : Bool) (isFromCast : Bool) :
    TypedFnSignature :=
  { untyped := { id := eid, name := ":", isMethod := false,
                 isTypeConstructor := false, isCompilerGenerated := true,
                 throws := false, kind := .operator,
                 formals := [⟨"from", false⟩, ⟨"to", false⟩] },
    formalTypes :=
      if isFromCast then
        [⟨.defaultIntent, .enumTy eid ab⟩, ⟨.typeK, .anyIntegralTy⟩]
      else
        [⟨.defaultIntent, .anyIntegralTy⟩, ⟨.typeK, .enumTy eid ab⟩],
    needsInstantiation := true }

/-- Modelled from the spec: the memoized query framework behind
`QUERY_BEGIN` and `QUERY_END` (`chpl/framework/query-impl.h`), code of the
repository that is not part of this excerpt.  Per the spec, the context
owns a durable result table; a call looks its key up, returns the stored
object unchanged when present, and otherwise computes, stores and returns
the new entry.  The third component counts the computations performed by
this call. -/
def memoGet {κ α : Type} [DecidableEq κ] (compute : κ → α)
    (tbl : List (κ × α)) (k : κ) : α × List (κ × α) × Nat :=
  match tbl.find? (fun e => decide (e.1 = k)) with
  | some e => (e.2, tbl, 0)
  | none => (compute k, (k, compute k) :: tbl, 1)

/-- Modelled from the spec: a sequence of query requests threading the
memo table, collecting the returned objects and the total number of
computations performed. -/
def memoRun {κ α : Type} [DecidableEq κ] (compute : κ → α)
    (tbl : List (κ × α)) : List κ → List α × List (κ × α) × Nat
  | [] => ([], tbl, 0)
  | k :: ks =>
    let r := memoGet compute tbl k
    let rest := memoRun compute r.2.1 ks
    (r.1 :: rest.1, rest.2.1, r.2.2 + rest.2.2)

/-- The memoization key of `getCompilerGeneratedMethodQuery`. -/
abbrev MethodKey := Ty × String × Bool

/-- The computation memoized by `getCompilerGeneratedMethodQuery`. -/
def methodCompute (ctx : Context) (k : MethodKey) :
    Except Fatal (Option TypedFnSignature) :=
  getCompilerGeneratedMethodQuery ctx k.1 k.2.1 k.2.2

/-- The memoization key of `getCompilerGeneratedBinaryOpQuery`. -/
abbrev BinOpKey := QualifiedType × QualifiedType × String

/-- The computation memoized by `getCompilerGeneratedBinaryOpQuery`. -/
def binOpCompute (k : BinOpKey) : Except Fatal (Option TypedFnSignature) :=
  getCompilerGeneratedBinaryOpQuery k.1 k.2.1 k.2.2

/-- A minimal context: no scopes, no declarations found by lookup, empty
field lists, nothing default-initializable, everything concrete. -/
def trivCtx : Context where
  scopeForId := fun _ => none
  lookupNameInScope := fun _ _ => []
  canPass := fun _ _ => ⟨false, false, false, false⟩
  fieldsForTypeDecl := fun _ => ⟨[], false⟩
  isTypeDefaultInitializable := fun _ => false
  getTypeGenericity := fun _ => .concrete

/-- A concrete record type used in witnesses. -/
def recR : Composite := ⟨.record, 1, none, false⟩

/-- Claim C1 as stated is false: for the record type `recR` and the
requested name `foo` (not a fixed compiler-method name and not a builtin
type operator), no user overload shadows the name in the defining scope,
yet `needCompilerGeneratedMethod` returns false rather than true.  The
record branch of the source triggers only when the name IS one of
`==`/`=`. -/
theorem c1_counterexample :
    areOverloadsPresentInDefiningScope trivCtx (.composite recR) "foo" =
      false ∧
    needCompilerGeneratedMethod trivCtx (.composite recR) "foo" false =
      false :=
  ⟨rfl, rfl⟩

/-- Claim C1, amended: for every record type `R` and every requested name
outside the fixed compiler-method names `init`/`deinit`/`init=`, the
record branch of `needCompilerGeneratedMethod` deems the method eligible
(subject to the shadow check) exactly when the name is one of the two
builtin type operators `==`/`=`; for every other name the result is
false. -/
theorem c1_amended_record_branch (ctx : Context) (c : Composite)
    (name : String) (parenless : Bool)
    (hrec : c.ckind = CompositeKind.record)
    (h1 : name ≠ "init") (h2 : name ≠ "deinit") (h3 : name ≠ "init=") :
    needCompilerGeneratedMethod ctx (.composite c) name parenless =
      ((name = "==" || name = "=") &&
       !areOverloadsPresentInDefiningScope ctx (.composite c) name) := by
  have hn : isNameOfCompilerGeneratedMethod name = false := by
    simp [isNameOfCompilerGeneratedMethod, h1, h2, h3]
  cases hc : ((name = "==" || name = "=") &&
      !areOverloadsPresentInDefiningScope ctx (.composite c) name) <;>
    simp_all [needCompilerGeneratedMethod, isBuiltinTypeOperator,
      Ty.isRecordType, Ty.isTupleType, Ty.isDomainType, Ty.isArrayType,
      Ty.isCPtrType]

/-- Witness for the amended claim C1, at the record `recR`, name `==`,
with no shadowing overloads present. -/
theorem c1_amended_record_branch_witness :
    recR.ckind = CompositeKind.record ∧
    needCompilerGeneratedMethod trivCtx (.composite recR) "==" false =
      (("==" = "==" || "==" = "=") &&
       !areOverloadsPresentInDefiningScope trivCtx (.composite recR) "==") :=
  ⟨rfl, c1_amended_record_branch trivCtx recR "==" false rfl
    (by decide) (by decide) (by decide)⟩

/-- Claim C3 is right and the code is wrong: whenever
`needCompilerGeneratedMethod` is false the query's result stays null, but
the name-consistency assertion after the generation branch executes
unconditionally and dereferences the null result, instead of returning
null as the normal outcome the documentation of
`getCompilerGeneratedMethod` promises. -/
theorem c3_null_result_dereferenced (ctx : Context) (type : Ty)
    (name : String) (parenless : Bool)
    (h : needCompilerGeneratedMethod ctx type name parenless = false) :
    getCompilerGeneratedMethod ctx type name parenless =
      .error Fatal.nullDereference := by
  simp [getCompilerGeneratedMethod, getCompilerGeneratedMethodQuery,
    getCompilerGeneratedMethodBody, h]

/-- Witness for C3: an `int`-like primitive type with an arbitrary name
needs no generated method, and the query dereferences the null result. -/
theorem c3_null_result_dereferenced_witness :
    needCompilerGeneratedMethod trivCtx (.primitive 0) "foo" false =
      false ∧
    getCompilerGeneratedMethod trivCtx (.primitive 0) "foo" false =
      .error Fatal.nullDereference :=
  ⟨rfl, c3_null_result_dereferenced trivCtx (.primitive 0) "foo" false rfl⟩

/-- Claim C8: a tuple type needs a generated `size` regardless of the
lookup context (no shadow check), and for a domain type and any name
outside the fixed compiler-method names, the parenless requests succeed
exactly for `idxType`/`rank`/`stridable`/`parSafe` and the paren-ful
requests exactly for `isRectangular`/`isAssociative`. -/
theorem c8_tuple_size_domain_queries (ctx : Context) (tid did : Nat)
    (name : String) (parenless : Bool)
    (h1 : name ≠ "init") (h2 : name ≠ "deinit") (h3 : name ≠ "init=") :
    needCompilerGeneratedMethod ctx (.tupleTy tid) "size" parenless =
      true ∧
    needCompilerGeneratedMethod ctx (.domainTy did) name true =
      (name = "idxType" || name = "rank" || name = "stridable" ||
       name = "parSafe") ∧
    needCompilerGeneratedMethod ctx (.domainTy did) name false =
      (name = "isRectangular" || name = "isAssociative") := by
  have hn : isNameOfCompilerGeneratedMethod name = false := by
    simp [isNameOfCompilerGeneratedMethod, h1, h2, h3]
  refine ⟨?_, ?_, ?_⟩
  · simp [needCompilerGeneratedMethod, isNameOfCompilerGeneratedMethod,
      isBuiltinTypeOperator, Ty.isRecordType, Ty.isTupleType,
      Ty.isDomainType, Ty.isArrayType, Ty.isCPtrType]
  · simp [needCompilerGeneratedMethod, hn, Ty.isRecordType,
      Ty.isTupleType, Ty.isDomainType, Ty.isArrayType, Ty.isCPtrType]
  · simp [needCompilerGeneratedMethod, hn, Ty.isRecordType,
      Ty.isTupleType, Ty.isDomainType, Ty.isArrayType, Ty.isCPtrType]

/-- Witness for C8 at a concrete tuple, a concrete domain and the name
`idxType`: parenless lookup succeeds, paren-ful lookup fails. -/
theorem c8_tuple_size_domain_queries_witness :
    needCompilerGeneratedMethod trivCtx (.tupleTy 3) "size" false = true ∧
    needCompilerGeneratedMethod trivCtx (.domainTy 4) "idxType" true =
      ("idxType" = "idxType" || "idxType" = "rank" ||
       "idxType" = "stridable" || "idxType" = "parSafe") ∧
    needCompilerGeneratedMethod trivCtx (.domainTy 4) "idxType" false =
      ("idxType" = "isRectangular" || "idxType" = "isAssociative") :=
  c8_tuple_size_domain_queries trivCtx 3 4 "idxType" false
    (by decide) (by decide) (by decide)

/-- Claim C7: a `:` binary-operator request with an enum operand yields
null when that enum is abstract, and otherwise a non-method operator
signature named `:` with exactly the formals `from` and `to`, needing
instantiation, `from` being the enum with default intent and `to` a
type-formal of the abstract any-integral type for a from-enum cast, with
the roles inverted for a to-enum cast. -/
theorem c7_enum_cast_generation (lhs rhs : QualifiedType) (eid : Nat)
    (ab : Bool) :
    (lhs.type = .enumTy eid ab →
      getCompilerGeneratedBinaryOp lhs rhs ":" =
        .ok (if ab then none else some (enumCastSig eid ab true))) ∧
    (lhs.type.isEnumType = false → rhs.type = .enumTy eid ab →
      getCompilerGeneratedBinaryOp lhs rhs ":" =
        .ok (if ab then none else some (enumCastSig eid ab false))) := by
  constructor
  · intro h
    cases ab <;>
      simp [getCompilerGeneratedBinaryOp, getCompilerGeneratedBinaryOpQuery,
        h, Ty.isEnumType, generateCastFromEnum, generateToOrFromCastForEnum,
        Ty.toEnumType?, setupGeneratedEnumCastFormals, enumCastSig]
  · intro h1 h2
    simp only [getCompilerGeneratedBinaryOp,
      getCompilerGeneratedBinaryOpQuery, h1]
    cases ab <;>
      simp [h2, Ty.isEnumType, generateCastToEnum,
        generateToOrFromCastForEnum, Ty.toEnumType?,
        setupGeneratedEnumCastFormals, enumCastSig]

/-- Witness for C7: a concrete enum on the left produces the from-cast
signature; an abstract enum on the right produces null. -/
theorem c7_enum_cast_generation_witness :
    getCompilerGeneratedBinaryOp ⟨.var, .enumTy 7 false⟩
        ⟨.var, .primitive 0⟩ ":" =
      .ok (if false then none else some (enumCastSig 7 false true)) ∧
    getCompilerGeneratedBinaryOp ⟨.var, .primitive 0⟩
        ⟨.var, .enumTy 8 true⟩ ":" =
      .ok (if true then none else some (enumCastSig 8 true false)) :=
  ⟨(c7_enum_cast_generation ⟨.var, .enumTy 7 false⟩ ⟨.var, .primitive 0⟩
      7 false).1 rfl,
   (c7_enum_cast_generation ⟨.var, .primitive 0⟩ ⟨.var, .enumTy 8 true⟩
      8 true).2 rfl rfl⟩

/-- Claim C10: when both operands of a `:` request are enum types, the
from-cast for the left enum takes precedence: the result is determined by
the left enum alone, and an abstract left enum yields null even when the
right enum is concrete. -/
theorem c10_lhs_enum_precedence (lhs rhs : QualifiedType) (e1 e2 : Nat)
    (a1 a2 : Bool) (h1 : lhs.type = .enumTy e1 a1)
    (h2 : rhs.type = .enumTy e2 a2) :
    getCompilerGeneratedBinaryOp lhs rhs ":" =
      .ok (if a1 then none else some (enumCastSig e1 a1 true)) := by
  cases a1 <;>
    simp [getCompilerGeneratedBinaryOp, getCompilerGeneratedBinaryOpQuery,
      h1, Ty.isEnumType, generateCastFromEnum, generateToOrFromCastForEnum,
      Ty.toEnumType?, setupGeneratedEnumCastFormals, enumCastSig]

/-- Witness for C10: an abstract enum on the left and a concrete enum on
the right still yield null. -/
theorem c10_lhs_enum_precedence_witness :
    getCompilerGeneratedBinaryOp ⟨.var, .enumTy 9 true⟩
        ⟨.var, .enumTy 10 false⟩ ":" =
      .ok (if true then none else some (enumCastSig 9 true true)) :=
  c10_lhs_enum_precedence ⟨.var, .enumTy 9 true⟩ ⟨.var, .enumTy 10 false⟩
    9 10 true false rfl rfl

/-- Claim C5: the generated `init=` for a composite type has exactly the
two formals `this` (REF for record/union, CONST_IN for class) over the
concrete, non-stripped type and `other` of kind CONST_REF with the same
type as the receiver formal, and never needs instantiation. -/
theorem c5_init_copy_shape (ctx : Context) (c : Composite)
    (parenless : Bool)
    (hshadow : areOverloadsPresentInDefiningScope ctx (.composite c)
      "init=" = false) :
    getCompilerGeneratedMethod ctx (.composite c) "init=" parenless =
      .ok (some
        { untyped := { id := c.cid, name := "init=", isMethod := true,
                       isTypeConstructor := false,
                       isCompilerGenerated := true, throws := false,
                       kind := .proc,
                       formals := [⟨"this", false⟩, ⟨"other", false⟩] },
          formalTypes := [initReceiverQt c,
            ⟨.constRef, (initReceiverQt c).type⟩],
          needsInstantiation := false }) := by
  have hneed : needCompilerGeneratedMethod ctx (.composite c) "init="
      parenless = true := by
    simp [needCompilerGeneratedMethod, isNameOfCompilerGeneratedMethod,
      hshadow]
  rcases hI : c.instFromId with _ | i <;> cases hk : c.ckind <;>
    simp_all [getCompilerGeneratedMethod, getCompilerGeneratedMethodQuery,
      getCompilerGeneratedMethodBody, Ty.getCompositeType, Ty.isCPtrType,
      generateInitCopySignature, generateInitParts,
      CompType.instantiatedFrom, Composite.instantiatedFrom,
      initReceiverQt, CompType.cid, Except.map]

/-- Witness for C5 at the concrete record `recR` with an empty lookup
context. -/
theorem c5_init_copy_shape_witness :
    areOverloadsPresentInDefiningScope trivCtx (.composite recR) "init=" =
      false ∧
    getCompilerGeneratedMethod trivCtx (.composite recR) "init=" false =
      .ok (some
        { untyped := { id := recR.cid, name := "init=", isMethod := true,
                       isTypeConstructor := false,
                       isCompilerGenerated := true, throws := false,
                       kind := .proc,
                       formals := [⟨"this", false⟩, ⟨"other", false⟩] },
          formalTypes := [initReceiverQt recR,
            ⟨.constRef, (initReceiverQt recR).type⟩],
          needsInstantiation := false }) :=
  ⟨rfl, c5_init_copy_shape trivCtx recR false rfl⟩

/-- Claim C6: the generated record `==` has the intent triple
REF/REF/CONST_REF and the generated record `=` the triple
CONST_REF/CONST_REF/CONST_REF, every formal over the generic-stripped
record, and both need instantiation exactly when the record's genericity
is GENERIC or GENERIC_WITH_DEFAULTS. -/
theorem c6_record_operator_intents (ctx : Context) (c : Composite)
    (hrec : c.ckind = CompositeKind.record) (parenless : Bool)
    (hsEq : areOverloadsPresentInDefiningScope ctx (.composite c) "==" =
      false)
    (hsAs : areOverloadsPresentInDefiningScope ctx (.composite c) "=" =
      false) :
    getCompilerGeneratedMethod ctx (.composite c) "==" parenless =
      .ok (some
        { untyped := { id := c.genericStripped.cid, name := "==",
                       isMethod := true, isTypeConstructor := false,
                       isCompilerGenerated := true, throws := false,
                       kind := .operator,
                       formals := [⟨"this", false⟩, ⟨"lhs", false⟩,
                                   ⟨"rhs", false⟩] },
          formalTypes := [⟨.ref, .composite c.genericStripped⟩,
            ⟨.ref, .composite c.genericStripped⟩,
            ⟨.constRef, .composite c.genericStripped⟩],
          needsInstantiation :=
            (ctx.getTypeGenericity (.composite c) = Genericity.generic ||
             ctx.getTypeGenericity (.composite c) =
               Genericity.genericWithDefaults) }) ∧
    getCompilerGeneratedMethod ctx (.composite c) "=" parenless =
      .ok (some
        { untyped := { id := c.genericStripped.cid, name := "=",
                       isMethod := true, isTypeConstructor := false,
                       isCompilerGenerated := true, throws := false,
                       kind := .operator,
                       formals := [⟨"this", false⟩, ⟨"lhs", false⟩,
                                   ⟨"rhs", false⟩] },
          formalTypes := [⟨.constRef, .composite c.genericStripped⟩,
            ⟨.constRef, .composite c.genericStripped⟩,
            ⟨.constRef, .composite c.genericStripped⟩],
          needsInstantiation :=
            (ctx.getTypeGenericity (.composite c) = Genericity.generic ||
             ctx.getTypeGenericity (.composite c) =
               Genericity.genericWithDefaults) }) := by
  constructor <;>
  · rcases hI : c.instFromId with _ | i <;>
      simp_all [getCompilerGeneratedMethod, getCompilerGeneratedMethodQuery,
        getCompilerGeneratedMethodBody, needCompilerGeneratedMethod,
        isNameOfCompilerGeneratedMethod, isBuiltinTypeOperator,
        Ty.getCompositeType, Ty.isRecordType, Ty.isTupleType,
        Ty.isDomainType, Ty.isArrayType, Ty.isCPtrType,
        generateRecordComparison, generateRecordAssignment,
        generateRecordBinaryOperator, generateBinaryOperatorMethodParts,
        generateUnaryOperatorMethodParts, CompType.instantiatedFrom,
        Composite.instantiatedFrom, Composite.genericStripped,
        CompType.toTy, CompType.cid, Except.map]

/-- Witness for C6 at the concrete record `recR` with an empty lookup
context. -/
theorem c6_record_operator_intents_witness :
    recR.ckind = CompositeKind.record ∧
    getCompilerGeneratedMethod trivCtx (.composite recR) "==" false =
      .ok (some
        { untyped := { id := recR.genericStripped.cid, name := "==",
                       isMethod := true, isTypeConstructor := false,
                       isCompilerGenerated := true, throws := false,
                       kind := .operator,
                       formals := [⟨"this", false⟩, ⟨"lhs", false⟩,
                                   ⟨"rhs", false⟩] },
          formalTypes := [⟨.ref, .composite recR.genericStripped⟩,
            ⟨.ref, .composite recR.genericStripped⟩,
            ⟨.constRef, .composite recR.genericStripped⟩],
          needsInstantiation :=
            (trivCtx.getTypeGenericity (.composite recR) =
               Genericity.generic ||
             trivCtx.getTypeGenericity (.composite recR) =
               Genericity.genericWithDefaults) }) :=
  ⟨rfl, (c6_record_operator_intents trivCtx recR rfl false rfl rfl).1⟩

/-- The source's overload-presence oracle agrees with the shadow condition
as the specification words it. -/
theorem areOverloads_iff_shadowedSpec (ctx : Context) (t : Ty)
    (name : String) :
    areOverloadsPresentInDefiningScope ctx t name = true ↔
      shadowedSpec ctx t name := by
  cases hct : t.getCompositeType with
  | none => simp [areOverloadsPresentInDefiningScope, shadowedSpec, hct]
  | some ct =>
    cases hs : ctx.scopeForId ct.cid with
    | none =>
      simp [areOverloadsPresentInDefiningScope, shadowedSpec, hct, hs]
    | some scope =>
      constructor
      · intro h
        simp only [areOverloadsPresentInDefiningScope, hct, hs] at h
        obtain ⟨d, hd, hp⟩ := List.any_eq_true.mp h
        cases d with
        | other => simp at hp
        | fn m k rqt =>
          simp only [Bool.and_eq_true, Bool.or_eq_true, Bool.not_eq_true',
            decide_eq_true_eq] at hp
          exact ⟨ct, scope, hct, hs, .fn m k rqt, hd, m, k, rqt, rfl,
            hp.1, hp.2.1.1, hp.2.1.2, hp.2.2⟩
      · rintro ⟨ct', scope', hct', hs', d, hd, m, k, rqt, rfl, hmk, hpass,
          hconv, hprom⟩
        obtain rfl : ct' = ct := by
          rw [hct] at hct'; exact (Option.some.inj hct').symm
        obtain rfl : scope' = scope := by
          rw [hs] at hs'; exact (Option.some.inj hs').symm
        simp only [areOverloadsPresentInDefiningScope, hct, hs]
        refine List.any_eq_true.mpr ⟨.fn m k rqt, hd, ?_⟩
        simp only [Bool.and_eq_true, Bool.or_eq_true, Bool.not_eq_true',
          decide_eq_true_eq]
        exact ⟨hmk, ⟨hpass, hconv⟩, hprom⟩

/-- Claim C2: for each of the fixed compiler-method names `init`, `deinit`
and `init=`, generation is needed exactly when no declaration found in the
type's defining scope shadows the name — a method or operator function
whose receiver formal the concrete type passes to with no conversion or
only an implicit-borrowing conversion and without promotion; a type with
no defining scope is never shadowed, so generation proceeds. -/
theorem c2_need_iff_unshadowed (ctx : Context) (t : Ty) (name : String)
    (parenless : Bool)
    (h : name = "init" ∨ name = "deinit" ∨ name = "init=") :
    (needCompilerGeneratedMethod ctx t name parenless = true ↔
      ¬ shadowedSpec ctx t name) := by
  rw [← areOverloads_iff_shadowedSpec]
  cases hover : areOverloadsPresentInDefiningScope ctx t name <;>
    rcases h with h | h | h <;> subst h <;>
      simp [needCompilerGeneratedMethod, isNameOfCompilerGeneratedMethod,
        hover]

/-- Witness for C2: a primitive type has no defining scope, so the
generation of `init` proceeds. -/
theorem c2_need_iff_unshadowed_witness :
    ("init" = "init" ∨ "init" = "deinit" ∨ "init" = "init=") ∧
    (needCompilerGeneratedMethod trivCtx (.primitive 0) "init" false =
        true ↔
      ¬ shadowedSpec trivCtx (.primitive 0) "init") :=
  ⟨Or.inl rfl,
   c2_need_iff_unshadowed trivCtx (.primitive 0) "init" false (Or.inl rfl)⟩

/-- Claim C4: for a composite type with a non-generic field set and (for a
class) a trivial parent, the generated `init` is a method over the fully
generic version of the type, with the receiver REF for record/union and
CONST_IN over the non-nilable borrowed class for a basic class, followed
by one formal per field in declaration order, each with a default iff the
field has an explicit default value or its type is default-initializable,
type/param fields keeping their kind and value fields taking IN intent,
and the signature needs no instantiation. -/
theorem c4_init_signature_shape (ctx : Context) (c : Composite)
    (parenless : Bool)
    (hshadow : areOverloadsPresentInDefiningScope ctx (.composite c)
      "init" = false)
    (hng : (ctx.fieldsForTypeDecl (.rcu c.genericStripped)).isGeneric =
      false)
    (hpar : c.ckind = CompositeKind.basicClass →
      c.genericStripped.parentNonTrivial = false) :
    getCompilerGeneratedMethod ctx (.composite c) "init" parenless =
      .ok (some
        { untyped := { id := c.genericStripped.cid, name := "init",
                       isMethod := true, isTypeConstructor := false,
                       isCompilerGenerated := true, throws := false,
                       kind := .proc,
                       formals := ⟨"this", false⟩ ::
                         (ctx.fieldsForTypeDecl
                           (.rcu c.genericStripped)).fields.map
                           (fun f => ⟨f.name, f.hasDefaultValue ||
                             ctx.isTypeDefaultInitializable f.qt.type⟩) },
          formalTypes := initReceiverQt c.genericStripped ::
            (ctx.fieldsForTypeDecl (.rcu c.genericStripped)).fields.map
              (fun f =>
                if f.qt.kind = QtKind.typeK || f.qt.kind = QtKind.param
                then f.qt
                else ⟨.inIntent, f.qt.type⟩),
          needsInstantiation := false }) := by
  rcases hI : c.instFromId with _ | i <;> cases hk : c.ckind <;>
    simp_all [getCompilerGeneratedMethod, getCompilerGeneratedMethodQuery,
      getCompilerGeneratedMethodBody, needCompilerGeneratedMethod,
      isNameOfCompilerGeneratedMethod, Ty.getCompositeType, Ty.isCPtrType,
      generateInitSignature, generateInitParts, CompType.instantiatedFrom,
      Composite.instantiatedFrom, Composite.genericStripped,
      initReceiverQt, CompType.cid, Except.map]

/-- Witness for C4 at the concrete record `recR` (no fields, no
shadowing overloads). -/
theorem c4_init_signature_shape_witness :
    areOverloadsPresentInDefiningScope trivCtx (.composite recR) "init" =
      false ∧
    (trivCtx.fieldsForTypeDecl (.rcu recR.genericStripped)).isGeneric =
      false ∧
    getCompilerGeneratedMethod trivCtx (.composite recR) "init" false =
      .ok (some
        { untyped := { id := recR.genericStripped.cid, name := "init",
                       isMethod := true, isTypeConstructor := false,
                       isCompilerGenerated := true, throws := false,
                       kind := .proc,
                       formals := ⟨"this", false⟩ ::
                         (trivCtx.fieldsForTypeDecl
                           (.rcu recR.genericStripped)).fields.map
                           (fun f => ⟨f.name, f.hasDefaultValue ||
                             trivCtx.isTypeDefaultInitializable
                               f.qt.type⟩) },
          formalTypes := initReceiverQt recR.genericStripped ::
            (trivCtx.fieldsForTypeDecl
              (.rcu recR.genericStripped)).fields.map
              (fun f =>
                if f.qt.kind = QtKind.typeK || f.qt.kind = QtKind.param
                then f.qt
                else ⟨.inIntent, f.qt.type⟩),
          needsInstantiation := false }) :=
  ⟨rfl, rfl,
   c4_init_signature_shape trivCtx recR false rfl rfl (by decide)⟩

/-- A memo-table hit returns the stored entry, leaves the table unchanged
and performs no computation. -/
theorem memoGet_hit {κ α : Type} [DecidableEq κ] (compute : κ → α)
    (tbl : List (κ × α)) (k : κ) (e : κ × α)
    (h : tbl.find? (fun e => decide (e.1 = k)) = some e) :
    memoGet compute tbl k = (e.2, tbl, 0) := by
  simp [memoGet, h]

/-- Repeated requests for a key already stored keep returning the stored
object, never recomputing and never touching the table. -/
theorem memoRun_replicate_hit {κ α : Type} [DecidableEq κ]
    (compute : κ → α) (tbl : List (κ × α)) (k : κ) (e : κ × α) (n : Nat)
    (h : tbl.find? (fun e => decide (e.1 = k)) = some e) :
    memoRun compute tbl (List.replicate n k) =
      (List.replicate n e.2, tbl, 0) := by
  induction n with
  | zero => simp [memoRun]
  | succ n ih =>
    simp [List.replicate_succ, memoRun, memoGet_hit compute tbl k e h, ih]

/-- Claim C9 (the query framework is modelled from the spec): within one
context, a run of repeated requests with the same key returns, for every
request, the identical stored signature object computed by the first
request, and the computation runs exactly once; this holds for the method
query and for the binary-operator query key alike. -/
theorem c9_memoized_dispatch (ctx : Context) (k : MethodKey)
    (kb : BinOpKey) (n m : Nat) :
    memoRun (methodCompute ctx) [] (List.replicate (n + 1) k) =
      (List.replicate (n + 1) (methodCompute ctx k),
       [(k, methodCompute ctx k)], 1) ∧
    memoRun binOpCompute [] (List.replicate (m + 1) kb) =
      (List.replicate (m + 1) (binOpCompute kb),
       [(kb, binOpCompute kb)], 1) := by
  constructor
  · have h2 : ([(k, methodCompute ctx k)] :
        List (MethodKey × Except Fatal (Option TypedFnSignature))).find?
        (fun e => decide (e.1 = k)) = some (k, methodCompute ctx k) := by
      simp [List.find?]
    rw [List.replicate_succ]
    simp [List.replicate_succ, memoRun, memoGet,
      memoRun_replicate_hit (methodCompute ctx) _ k _ n h2]
  · have h2 : ([(kb, binOpCompute kb)] :
        List (BinOpKey × Except Fatal (Option TypedFnSignature))).find?
        (fun e => decide (e.1 = kb)) = some (kb, binOpCompute kb) := by
      simp [List.find?]
    rw [List.replicate_succ]
    simp [List.replicate_succ, memoRun, memoGet,
      memoRun_replicate_hit binOpCompute _ kb _ m h2]

end Chapel
